import Mathlib

/-!
Verification of the DynGauge plugin (src/DynGauge.cpp) against its
natural-language specification.

The development shallow-embeds the plugin's data model and operations:

* `Image` models a host image buffer as an explicit pixel grid; the host
  primitives `create`, `clear` and `draw` (region blit with a transparent
  colour index) are modelled as pure functions on it.
* `StaticTiles` gathers the static members of the C++ `BattleDisplay`
  class (the `mInitialized` flag and the gauge / bar / digit tile images);
  the static-mutating methods become functions `StaticTiles → StaticTiles`.
* `BattleDisplay` models one display instance: the nullable battler
  pointer, the (health, mana, ATB) snapshot, and the composite canvas.
  Battler pointers are addresses (`Nat`) into a host battler memory
  `Nat → Battler`, so that re-reading a pointer can observe host-side
  mutation; the null pointer is `Option.none`, and dereferencing it is a
  fault modelled as `Option.none` in the result.
* `onFrame` models the per-frame hook with its `inBattle` transition logic
  and the monster-binding loop, over a `PluginState` record of the
  plugin's globals.
* `ImageHeap` / `onExit` model the shutdown hook at the level of buffer
  allocation states, where destroying an already-destroyed buffer is a
  double-free fault.
-/

/-- A host image buffer: a `width × height` grid of colour indices, stored
as `height` rows of `width` pixels. Missing entries read as colour 0. -/
structure Image where
  width : Nat
  height : Nat
  pixels : List (List Nat)
deriving DecidableEq

namespace Image

/-- Model of `RPG::Image::create(w, h)`: a fresh buffer with every pixel
set to colour 0. -/
def create (w h : Nat) : Image :=
  ⟨w, h, List.replicate h (List.replicate w 0)⟩

/-- Model of `RPG::Image::clear()`: every pixel reset to colour 0; the
dimensions are kept. -/
def clear (img : Image) : Image :=
  create img.width img.height

/-- Read the pixel at column `x`, row `y` (colour 0 outside the grid). -/
def getPixel (img : Image) (x y : Nat) : Nat :=
  (img.pixels.getD y []).getD x 0

/-- Write colour `v` at column `x`, row `y` (no effect outside the grid). -/
def setPixel (img : Image) (x y v : Nat) : Image :=
  { img with pixels := img.pixels.set y ((img.pixels.getD y []).set x v) }

/-- Model of `RPG::Image::draw(dx, dy, src, sx, sy, w, h, mask)`: blit the
`w × h` region of `src` at `(sx, sy)` onto the destination at `(dx, dy)`,
skipping source pixels equal to the transparent colour index `mask`. -/
def draw (dst : Image) (dx dy : Nat) (src : Image) (sx sy w h : Nat)
    (mask : Nat) : Image :=
  (List.range h).foldl (fun acc oy =>
    (List.range w).foldl (fun acc2 ox =>
      let p := src.getPixel (sx + ox) (sy + oy)
      if p ≠ mask then acc2.setPixel (dx + ox) (dy + oy) p else acc2) acc)
    dst

theorem clear_eq_create (img : Image) :
    img.clear = create img.width img.height := rfl

theorem setPixel_width (img : Image) (x y v : Nat) :
    (img.setPixel x y v).width = img.width := rfl

theorem setPixel_height (img : Image) (x y v : Nat) :
    (img.setPixel x y v).height = img.height := rfl

end Image

namespace BattleDisplay

/-- Width of the display image (`DISPLAY_WIDTH`). -/
def DISPLAY_WIDTH : Nat := 80

/-- Height of the display image (`DISPLAY_HEIGHT`). -/
def DISPLAY_HEIGHT : Nat := 320

/-- Width of a gauge image (`GAUGE_WIDTH`). -/
def GAUGE_WIDTH : Nat := 40

/-- Height of a gauge image (`GAUGE_HEIGHT`). -/
def GAUGE_HEIGHT : Nat := 8

/-- Source X coordinate of the health gauge in the system graphic. -/
def HEALTH_GAUGE_SRC_X : Nat := 0

/-- Source Y coordinate of the health gauge in the system graphic. -/
def HEALTH_GAUGE_SRC_Y : Nat := 40

/-- Source X coordinate of the mana gauge in the system graphic. -/
def MANA_GAUGE_SRC_X : Nat := 0

/-- Source Y coordinate of the mana gauge in the system graphic. -/
def MANA_GAUGE_SRC_Y : Nat := 56

/-- Source X coordinate of the ATB gauge in the system graphic. -/
def ATB_GAUGE_SRC_X : Nat := 0

/-- Source Y coordinate of the ATB gauge in the system graphic. -/
def ATB_GAUGE_SRC_Y : Nat := 72

/-- Width of a bar image (`BAR_WIDTH`). -/
def BAR_WIDTH : Nat := 40

/-- Height of a bar image (`BAR_HEIGHT`). -/
def BAR_HEIGHT : Nat := 8

/-- Source X coordinate of health bar A in the system graphic. -/
def HEALTH_BAR_A_SRC_X : Nat := 48

/-- Source Y coordinate of health bar A in the system graphic. -/
def HEALTH_BAR_A_SRC_Y : Nat := 40

/-- Source X coordinate of mana bar A in the system graphic. -/
def MANA_BAR_A_SRC_X : Nat := 48

/-- Source Y coordinate of mana bar A in the system graphic. -/
def MANA_BAR_A_SRC_Y : Nat := 56

/-- Source X coordinate of ATB bar A in the system graphic. -/
def ATB_BAR_A_SRC_X : Nat := 48

/-- Source Y coordinate of ATB bar A in the system graphic. -/
def ATB_BAR_A_SRC_Y : Nat := 72

/-- Source X coordinate of health bar B in the system graphic. -/
def HEALTH_BAR_B_SRC_X : Nat := 64

/-- Source Y coordinate of health bar B in the system graphic. -/
def HEALTH_BAR_B_SRC_Y : Nat := 40

/-- Source X coordinate of mana bar B in the system graphic. -/
def MANA_BAR_B_SRC_X : Nat := 64

/-- Source Y coordinate of mana bar B in the system graphic. -/
def MANA_BAR_B_SRC_Y : Nat := 56

/-- Source X coordinate of ATB bar B in the system graphic. -/
def ATB_BAR_B_SRC_X : Nat := 64

/-- Source Y coordinate of ATB bar B in the system graphic. -/
def ATB_BAR_B_SRC_Y : Nat := 72

/-- Width of a digit image (`DIGIT_WIDTH`). -/
def DIGIT_WIDTH : Nat := 8

/-- Height of a digit image (`DIGIT_HEIGHT`). -/
def DIGIT_HEIGHT : Nat := 16

/-- Source X coordinate of the first digit in the system graphic. -/
def DIGIT_SRC_X : Nat := 0

/-- Source Y coordinate of the first digit in the system graphic. -/
def DIGIT_SRC_Y : Nat := 80

/-- Number of digit images (`NUM_DIGITS`). -/
def NUM_DIGITS : Nat := 10

end BattleDisplay

/-- A host battler (`RPG::Battler`), restricted to the fields the plugin
reads: `databaseId`, `hp`, `mp` and `atbValue`. -/
structure Battler where
  databaseId : Int
  hp : Int
  mp : Int
  atbValue : Int
deriving DecidableEq

/-- The static members of the C++ `BattleDisplay` class: the one-time
initialization flag and the shared gauge, bar and digit tile images. -/
structure StaticTiles where
  mInitialized : Bool
  mHealthGaugePtr : Image
  mManaGaugePtr : Image
  mATBGaugePtr : Image
  mHealthBarAPtr : Image
  mHealthBarBPtr : Image
  mManaBarAPtr : Image
  mManaBarBPtr : Image
  mATBBarAPtr : Image
  mATBBarBPtr : Image
  mDigitPtr : Fin BattleDisplay.NUM_DIGITS → Image

/-- One battle display instance: the nullable battler pointer (an address
into the host battler memory, or `none` for the C++ `NULL`), the
(health, mana, ATB) snapshot, and the owned composite canvas. -/
structure BattleDisplay where
  mBattlerPtr : Option Nat
  mCurHealth : Int
  mCurMana : Int
  mCurATB : Int
  mDisplayPtr : Image

namespace BattleDisplay

/-- The default constructor `BattleDisplay()`: null battler pointer, zero
snapshot, and a freshly created `DISPLAY_WIDTH × DISPLAY_HEIGHT` canvas. -/
def mkDefault : BattleDisplay :=
  { mBattlerPtr := none
    mCurHealth := 0
    mCurMana := 0
    mCurATB := 0
    mDisplayPtr := Image.create DISPLAY_WIDTH DISPLAY_HEIGHT }

/-- Model of `BattleDisplay::InitializeStatic()`: copy each tile's region
of the system graphic `sys` (the host's `system2Image`) into the
corresponding static tile image, with colour 0 transparent, then set the
`mInitialized` flag. The digit loop runs over all `NUM_DIGITS` digits. -/
def InitializeStatic (sys : Image) (st : StaticTiles) : StaticTiles :=
  { mHealthGaugePtr := st.mHealthGaugePtr.draw 0 0 sys
      HEALTH_GAUGE_SRC_X HEALTH_GAUGE_SRC_Y GAUGE_WIDTH GAUGE_HEIGHT 0
    mManaGaugePtr := st.mManaGaugePtr.draw 0 0 sys
      MANA_GAUGE_SRC_X MANA_GAUGE_SRC_Y GAUGE_WIDTH GAUGE_HEIGHT 0
    mATBGaugePtr := st.mATBGaugePtr.draw 0 0 sys
      ATB_GAUGE_SRC_X ATB_GAUGE_SRC_Y GAUGE_WIDTH GAUGE_HEIGHT 0
    mHealthBarAPtr := st.mHealthBarAPtr.draw 0 0 sys
      HEALTH_BAR_A_SRC_X HEALTH_BAR_A_SRC_Y BAR_WIDTH BAR_HEIGHT 0
    mManaBarAPtr := st.mManaBarAPtr.draw 0 0 sys
      MANA_BAR_A_SRC_X MANA_BAR_A_SRC_Y BAR_WIDTH BAR_HEIGHT 0
    mATBBarAPtr := st.mATBBarAPtr.draw 0 0 sys
      ATB_BAR_A_SRC_X ATB_BAR_A_SRC_Y BAR_WIDTH BAR_HEIGHT 0
    mHealthBarBPtr := st.mHealthBarBPtr.draw 0 0 sys
      HEALTH_BAR_B_SRC_X HEALTH_BAR_B_SRC_Y BAR_WIDTH BAR_HEIGHT 0
    mManaBarBPtr := st.mManaBarBPtr.draw 0 0 sys
      MANA_BAR_B_SRC_X MANA_BAR_B_SRC_Y BAR_WIDTH BAR_HEIGHT 0
    mATBBarBPtr := st.mATBBarBPtr.draw 0 0 sys
      ATB_BAR_B_SRC_X ATB_BAR_B_SRC_Y BAR_WIDTH BAR_HEIGHT 0
    mDigitPtr := fun i => (st.mDigitPtr i).draw 0 0 sys
      (DIGIT_SRC_X + DIGIT_WIDTH * i.val) DIGIT_SRC_Y DIGIT_WIDTH DIGIT_HEIGHT 0
    mInitialized := true }

/-- The `mInitialized`-guarded call to `InitializeStatic` at the top of
`BattleDisplay::SetBattler` (the tile-initialization step). -/
def ensureStaticInit (sys : Image) (st : StaticTiles) : StaticTiles :=
  if !st.mInitialized then InitializeStatic sys st else st

/-- Model of `BattleDisplay::SetBattler(rBattlerPtr)`: run the guarded
static initialization, store the battler pointer `p`, and copy the
battler's current `hp`, `mp` and `atbValue` into the snapshot. The host
battler memory is `mem`; the call site always passes a valid address. -/
def SetBattler (sys : Image) (mem : Nat → Battler) (p : Nat)
    (st : StaticTiles) (d : BattleDisplay) : StaticTiles × BattleDisplay :=
  (ensureStaticInit sys st,
   { d with
       mBattlerPtr := some p
       mCurHealth := (mem p).hp
       mCurMana := (mem p).mp
       mCurATB := (mem p).atbValue })

/-- Model of `BattleDisplay::Draw()`: clear the composite canvas, then
draw the health gauge tile at the fixed anchor
`(0, DISPLAY_HEIGHT - GAUGE_HEIGHT)` (lower-left corner, with room for
one gauge row). -/
def Draw (st : StaticTiles) (d : BattleDisplay) : BattleDisplay :=
  { d with
      mDisplayPtr :=
        (d.mDisplayPtr.clear).draw 0 (DISPLAY_HEIGHT - GAUGE_HEIGHT)
          st.mHealthGaugePtr 0 0 GAUGE_WIDTH GAUGE_HEIGHT 0 }

/-- Model of `BattleDisplay::Update()`: re-read `hp`, `mp` and `atbValue`
through the stored battler pointer into the snapshot, then redraw via
`Draw`. The C++ body dereferences `mBattlerPtr` unconditionally, so a
null pointer is a fault, modelled as `none`. -/
def Update (st : StaticTiles) (mem : Nat → Battler) (d : BattleDisplay) :
    Option BattleDisplay :=
  match d.mBattlerPtr with
  | none => none
  | some p =>
      some (Draw st
        { d with
            mCurHealth := (mem p).hp
            mCurMana := (mem p).mp
            mCurATB := (mem p).atbValue })

end BattleDisplay

/-- Maximum number of heroes (`NUM_HEROES`). -/
def NUM_HEROES : Nat := 4

/-- Maximum number of monsters (`NUM_MONSTERS`). -/
def NUM_MONSTERS : Nat := 8

/-- The scene enumerator (`RPG::Scene`) of the host engine. -/
inductive Scene
  | SCENE_MAP
  | SCENE_MENU
  | SCENE_TITLE
  | SCENE_GAMEOVER
  | SCENE_DEBUG
  | SCENE_BATTLE
deriving DecidableEq

/-- The host engine's side of the boundary: the battler memory, the
`RPG::monsters` pointer array, and the shared system graphic. All are
read-only from the plugin's point of view during one hook call. -/
structure Host where
  mem : Nat → Battler
  monsters : Fin NUM_MONSTERS → Nat
  systemGraphic : Image

/-- The plugin's global mutable state: the `inBattle` flag, the static
tile images, and the two fixed display pools. -/
structure PluginState where
  inBattle : Bool
  statics : StaticTiles
  heroBattleDisplay : Fin NUM_HEROES → BattleDisplay
  monsterBattleDisplay : Fin NUM_MONSTERS → BattleDisplay

/-- One iteration of the monster-binding loop in `onFrame`: if monster
slot `i` has a non-zero `databaseId`, call `SetBattler` on that slot's
display (threading the static tiles through); otherwise do nothing. -/
def bindStep (host : Host)
    (acc : StaticTiles × (Fin NUM_MONSTERS → BattleDisplay))
    (i : Fin NUM_MONSTERS) :
    StaticTiles × (Fin NUM_MONSTERS → BattleDisplay) :=
  if (host.mem (host.monsters i)).databaseId ≠ 0 then
    let r := BattleDisplay.SetBattler host.systemGraphic host.mem
      (host.monsters i) acc.1 (acc.2 i)
    (r.1, fun j => if j = i then r.2 else acc.2 j)
  else acc

/-- Model of `onFrame(scene)`: if `inBattle` and the scene is no longer a
battle, clear `inBattle`; if not `inBattle` and the scene is a battle, set
`inBattle` and run the monster-binding loop over all `NUM_MONSTERS`
slots; otherwise do nothing. -/
def onFrame (host : Host) (scene : Scene) (g : PluginState) : PluginState :=
  if g.inBattle then
    if Scene.SCENE_BATTLE ≠ scene then { g with inBattle := false } else g
  else
    if Scene.SCENE_BATTLE = scene then
      let r := (List.finRange NUM_MONSTERS).foldl (bindStep host)
        (g.statics, g.monsterBattleDisplay)
      { g with inBattle := true, statics := r.1, monsterBattleDisplay := r.2 }
    else g

/-- Allocation-state view of the host's image buffers: `h a = true` means
the buffer at address `a` is currently allocated. The pixel-level `Image`
model above is the content view of the same buffers; this view is what
the shutdown claims are about. -/
def ImageHeap : Type := Nat → Bool

/-- Model of the host primitive `RPG::Image::destroy` at the allocation
level: destroying a live buffer frees it; destroying an already-destroyed
buffer is a double-free fault, modelled as `none`. -/
def ImageHeap.destroy (a : Nat) (h : ImageHeap) : Option ImageHeap :=
  if h a then some (fun x => if x = a then false else h x) else none

/-- Destroy a list of buffers in order, stopping at the first fault. -/
def destroySeq : List Nat → ImageHeap → Option ImageHeap
  | [], h => some h
  | a :: rest, h =>
    match ImageHeap.destroy a h with
    | none => none
    | some h2 => destroySeq rest h2

/-- The addresses of the static tile images of `BattleDisplay`: the nine
gauge and bar images and the ten digit images, each allocated by its own
`RPG::Image::create` call at static-initialization time. -/
structure StaticPtrs where
  healthGauge : Nat
  manaGauge : Nat
  atbGauge : Nat
  healthBarA : Nat
  healthBarB : Nat
  manaBarA : Nat
  manaBarB : Nat
  atbBarA : Nat
  atbBarB : Nat
  digits : List Nat

/-- The buffers `onExit` destroys, in the order the source destroys them:
health gauge, mana gauge, ATB gauge, health bars A and B, mana bars A and
B, ATB bars A and B, then the digit loop. -/
def onExitAddrs (P : StaticPtrs) : List Nat :=
  [P.healthGauge, P.manaGauge, P.atbGauge,
   P.healthBarA, P.healthBarB,
   P.manaBarA, P.manaBarB,
   P.atbBarA, P.atbBarB] ++ P.digits

/-- Model of `onExit()`: destroy every static tile image of
`BattleDisplay`, in source order, with no guard against re-entry. -/
def onExit (P : StaticPtrs) (h : ImageHeap) : Option ImageHeap :=
  destroySeq (onExitAddrs P) h

lemma destroy_of_live (a : Nat) (h : ImageHeap) (ha : h a = true) :
    ImageHeap.destroy a h = some (fun x => if x = a then false else h x) := by
  simp [ImageHeap.destroy, ha]

lemma destroy_of_dead (a : Nat) (h : ImageHeap) (ha : h a = false) :
    ImageHeap.destroy a h = none := by
  simp [ImageHeap.destroy, ha]

/-- A run of `destroySeq` over distinct live addresses succeeds, frees
exactly those addresses, and leaves every other address untouched. -/
lemma destroySeq_ok (l : List Nat) :
    l.Nodup → ∀ h : ImageHeap, (∀ a ∈ l, h a = true) →
    ∃ h2, destroySeq l h = some h2 ∧
      (∀ a, h2 a = if a ∈ l then false else h a) := by
  induction l with
  | nil =>
    intro _ h _
    exact ⟨h, rfl, fun a => by simp⟩
  | cons a t ih =>
    intro hnd h hlive
    have ha : h a = true := hlive a (by simp)
    have hstep := destroy_of_live a h ha
    have hnd2 := List.nodup_cons.mp hnd
    have hlive2 : ∀ b ∈ t, (fun x => if x = a then false else h x) b = true := by
      intro b hb
      have hba : b ≠ a := by
        intro hba
        exact hnd2.1 (hba ▸ hb)
      simp [hba]
      exact hlive b (by simp [hb])
    obtain ⟨h2, hrun, hval⟩ := ih hnd2.2 _ hlive2
    refine ⟨h2, ?_, ?_⟩
    · rw [destroySeq, hstep]
      exact hrun
    · intro b
      rcases eq_or_ne b a with rfl | hba
      · have : b ∉ t := hnd2.1
        simp [hval b, this]
      · have := hval b
        simp [hba] at this ⊢
        exact this

/-- A `destroySeq` run whose first address is already destroyed faults
immediately. -/
lemma destroySeq_dead_head (a : Nat) (t : List Nat) (h : ImageHeap)
    (ha : h a = false) : destroySeq (a :: t) h = none := by
  simp [destroySeq, destroy_of_dead a h ha]

/-- The display that `SetBattler` produces for monster slot `i`: Bound to
`RPG::monsters[i]`, with the snapshot copied from that monster. -/
def boundMonsterDisplay (host : Host) (i : Fin NUM_MONSTERS)
    (d : BattleDisplay) : BattleDisplay :=
  { d with
      mBattlerPtr := some (host.monsters i)
      mCurHealth := (host.mem (host.monsters i)).hp
      mCurMana := (host.mem (host.monsters i)).mp
      mCurATB := (host.mem (host.monsters i)).atbValue }

lemma setBattler_snd (sys : Image) (mem : Nat → Battler) (p : Nat)
    (st : StaticTiles) (d : BattleDisplay) :
    (BattleDisplay.SetBattler sys mem p st d).2 =
      { d with
          mBattlerPtr := some p
          mCurHealth := (mem p).hp
          mCurMana := (mem p).mp
          mCurATB := (mem p).atbValue } := rfl

/-- Characterization of the monster-binding loop: running it over a list
of distinct slot indices rebinds exactly the visited slots with an active
monster entry and leaves every other slot's display untouched. -/
lemma bindLoop_display (host : Host) (l : List (Fin NUM_MONSTERS)) :
    l.Nodup → ∀ (st : StaticTiles) (ds : Fin NUM_MONSTERS → BattleDisplay)
      (i : Fin NUM_MONSTERS),
    ((l.foldl (bindStep host) (st, ds)).2) i =
      if i ∈ l ∧ (host.mem (host.monsters i)).databaseId ≠ 0
      then boundMonsterDisplay host i (ds i)
      else ds i := by
  induction l with
  | nil =>
    intro _ st ds i
    simp
  | cons a t ih =>
    intro hnd st ds i
    have hnd2 := List.nodup_cons.mp hnd
    by_cases hact : (host.mem (host.monsters a)).databaseId ≠ 0
    · have hstep : bindStep host (st, ds) a =
          (BattleDisplay.ensureStaticInit host.systemGraphic st,
           fun j => if j = a then boundMonsterDisplay host a (ds a) else ds j) := by
        unfold bindStep
        rw [if_pos hact]
        rfl
      rw [List.foldl_cons, hstep, ih hnd2.2]
      rcases eq_or_ne i a with rfl | hia
      · have hit : i ∉ t := hnd2.1
        simp [hit, hact]
      · simp [hia]
    · have hstep : bindStep host (st, ds) a = (st, ds) := by
        unfold bindStep
        rw [if_neg hact]
      rw [List.foldl_cons, hstep, ih hnd2.2]
      rcases eq_or_ne i a with rfl | hia
      · simp [hact]
      · simp [hia]

lemma initializeStatic_flag (sys : Image) (st : StaticTiles) :
    (BattleDisplay.InitializeStatic sys st).mInitialized = true := rfl

lemma onFrame_inBattle_battle (host : Host) (g : PluginState)
    (hb : g.inBattle = true) : onFrame host Scene.SCENE_BATTLE g = g := by
  simp [onFrame, hb]

lemma onFrame_inBattle_nonbattle (host : Host) (scene : Scene)
    (g : PluginState) (hb : g.inBattle = true)
    (hs : scene ≠ Scene.SCENE_BATTLE) :
    onFrame host scene g = { g with inBattle := false } := by
  simp [onFrame, hb, Ne.symm hs]

lemma onFrame_out_nonbattle (host : Host) (scene : Scene) (g : PluginState)
    (hb : g.inBattle = false) (hs : scene ≠ Scene.SCENE_BATTLE) :
    onFrame host scene g = g := by
  simp [onFrame, hb, Ne.symm hs]

lemma onFrame_out_battle_flag (host : Host) (g : PluginState)
    (hb : g.inBattle = false) :
    (onFrame host Scene.SCENE_BATTLE g).inBattle = true := by
  simp [onFrame, hb]

/-- A small concrete image used as a stand-in host graphic in witnesses. -/
def exampleGraphic : Image := Image.create 2 2

/-- A concrete uninitialized static-tile state for witnesses. -/
def exampleStatics : StaticTiles :=
  { mInitialized := false
    mHealthGaugePtr := exampleGraphic
    mManaGaugePtr := exampleGraphic
    mATBGaugePtr := exampleGraphic
    mHealthBarAPtr := exampleGraphic
    mHealthBarBPtr := exampleGraphic
    mManaBarAPtr := exampleGraphic
    mManaBarBPtr := exampleGraphic
    mATBBarAPtr := exampleGraphic
    mATBBarBPtr := exampleGraphic
    mDigitPtr := fun _ => exampleGraphic }

/-- A concrete battler memory: every address holds an active monster with
hp 50, mp 10 and ATB 200. -/
def memA : Nat → Battler := fun _ =>
  { databaseId := 3, hp := 50, mp := 10, atbValue := 200 }

/-- A second battler memory with different live stats (hp 30, mp 5,
ATB 100), modelling host-side mutation after a bind. -/
def memB : Nat → Battler := fun _ =>
  { databaseId := 3, hp := 30, mp := 5, atbValue := 100 }

/-- A concrete host for witnesses: monster slot `i` points at address
`i` of `memA`. -/
def exampleHost : Host :=
  { mem := memA
    monsters := fun i => i.val
    systemGraphic := exampleGraphic }

/-- An unbound display with a small canvas, used as witness input. -/
def smallDisplay : BattleDisplay :=
  { mBattlerPtr := none
    mCurHealth := 0
    mCurMana := 0
    mCurATB := 0
    mDisplayPtr := Image.create 2 2 }

/-- Another display with the same canvas dimensions as `smallDisplay` but
different canvas content and snapshot. -/
def smallDisplayB : BattleDisplay :=
  { mBattlerPtr := none
    mCurHealth := 1
    mCurMana := 2
    mCurATB := 3
    mDisplayPtr := (Image.create 2 2).setPixel 0 0 5 }

/-- A display that has been bound via `SetBattler` to address 0 of `memA`. -/
def exampleBound : BattleDisplay :=
  (BattleDisplay.SetBattler exampleGraphic memA 0 exampleStatics smallDisplay).2

/-- A concrete plugin state outside battle, for witnesses. -/
def exampleG : PluginState :=
  { inBattle := false
    statics := exampleStatics
    heroBattleDisplay := fun _ => smallDisplay
    monsterBattleDisplay := fun _ => smallDisplay }

/-- The same concrete plugin state, but in battle. -/
def exampleGBattle : PluginState := { exampleG with inBattle := true }

/-- Concrete distinct addresses for the nineteen static tile images. -/
def examplePtrs : StaticPtrs :=
  { healthGauge := 0
    manaGauge := 1
    atbGauge := 2
    healthBarA := 3
    healthBarB := 4
    manaBarA := 5
    manaBarB := 6
    atbBarA := 7
    atbBarB := 8
    digits := [9, 10, 11, 12, 13, 14, 15, 16, 17, 18] }

/-- A heap in which every buffer is currently allocated. -/
def fullHeap : ImageHeap := fun _ => true

/-- C1: on the OutOfBattle-to-InBattle transition of `onFrame`, every
monster slot `i` whose host entry `RPG::monsters[i]` has a non-zero
`databaseId` becomes Bound to that monster — its battler pointer set to
`RPG::monsters[i]` and its snapshot copied from it — and every slot whose
monster entry has `databaseId` zero is left entirely unchanged. -/
theorem dynGauge_C1_monster_binding (host : Host) (g : PluginState)
    (hb : g.inBattle = false) (i : Fin NUM_MONSTERS) :
    ((host.mem (host.monsters i)).databaseId ≠ 0 →
      (onFrame host Scene.SCENE_BATTLE g).monsterBattleDisplay i =
        { g.monsterBattleDisplay i with
            mBattlerPtr := some (host.monsters i)
            mCurHealth := (host.mem (host.monsters i)).hp
            mCurMana := (host.mem (host.monsters i)).mp
            mCurATB := (host.mem (host.monsters i)).atbValue }) ∧
    ((host.mem (host.monsters i)).databaseId = 0 →
      (onFrame host Scene.SCENE_BATTLE g).monsterBattleDisplay i =
        g.monsterBattleDisplay i) := by
  have hmain : (onFrame host Scene.SCENE_BATTLE g).monsterBattleDisplay i =
      if i ∈ List.finRange NUM_MONSTERS ∧
          (host.mem (host.monsters i)).databaseId ≠ 0
      then boundMonsterDisplay host i (g.monsterBattleDisplay i)
      else g.monsterBattleDisplay i := by
    have hrun := bindLoop_display host (List.finRange NUM_MONSTERS)
      (List.nodup_finRange NUM_MONSTERS) g.statics g.monsterBattleDisplay i
    simpa [onFrame, hb] using hrun
  constructor
  · intro hact
    rw [hmain, if_pos ⟨List.mem_finRange i, hact⟩]
    rfl
  · intro hz
    rw [hmain, if_neg]
    intro hcon
    exact hcon.2 hz

/-- C1 witness: in the concrete state `exampleG`, the battle-start frame
binds monster slot 0 to its (active) monster entry. -/
theorem dynGauge_C1_witness :
    exampleG.inBattle = false ∧
    (onFrame exampleHost Scene.SCENE_BATTLE exampleG).monsterBattleDisplay
        ⟨0, by decide⟩ =
      { exampleG.monsterBattleDisplay ⟨0, by decide⟩ with
          mBattlerPtr := some (exampleHost.monsters ⟨0, by decide⟩)
          mCurHealth := (exampleHost.mem (exampleHost.monsters ⟨0, by decide⟩)).hp
          mCurMana := (exampleHost.mem (exampleHost.monsters ⟨0, by decide⟩)).mp
          mCurATB := (exampleHost.mem (exampleHost.monsters ⟨0, by decide⟩)).atbValue } :=
  ⟨rfl,
   (dynGauge_C1_monster_binding exampleHost exampleG rfl ⟨0, by decide⟩).1
     (by decide)⟩

/-- C2: from the OutOfBattle state, the scene sequence
`[NonBattle, Battle, Battle, NonBattle]` produces no transition and no
side effect on the 1st element, the single OutOfBattle-to-InBattle
transition on the 2nd, no transition and no side effect on the 3rd, and
the single InBattle-to-OutOfBattle transition (which only clears the
flag) on the 4th. -/
theorem dynGauge_C2_lifecycle (host : Host) (g0 : PluginState)
    (s1 s4 : Scene) (hb : g0.inBattle = false)
    (h1 : s1 ≠ Scene.SCENE_BATTLE) (h4 : s4 ≠ Scene.SCENE_BATTLE) :
    onFrame host s1 g0 = g0 ∧
    (onFrame host Scene.SCENE_BATTLE g0).inBattle = true ∧
    onFrame host Scene.SCENE_BATTLE (onFrame host Scene.SCENE_BATTLE g0) =
      onFrame host Scene.SCENE_BATTLE g0 ∧
    onFrame host s4
        (onFrame host Scene.SCENE_BATTLE (onFrame host Scene.SCENE_BATTLE g0)) =
      { onFrame host Scene.SCENE_BATTLE g0 with inBattle := false } := by
  have hg2 : (onFrame host Scene.SCENE_BATTLE g0).inBattle = true :=
    onFrame_out_battle_flag host g0 hb
  refine ⟨onFrame_out_nonbattle host s1 g0 hb h1, hg2, ?_, ?_⟩
  · exact onFrame_inBattle_battle host _ hg2
  · rw [onFrame_inBattle_battle host _ hg2]
    exact onFrame_inBattle_nonbattle host s4 _ hg2 h4

/-- C2 witness: the concrete sequence `[SCENE_MAP, SCENE_BATTLE,
SCENE_BATTLE, SCENE_MAP]` from `exampleG`. -/
theorem dynGauge_C2_witness :
    exampleG.inBattle = false ∧
    Scene.SCENE_MAP ≠ Scene.SCENE_BATTLE ∧
    (onFrame exampleHost Scene.SCENE_MAP exampleG = exampleG ∧
     (onFrame exampleHost Scene.SCENE_BATTLE exampleG).inBattle = true ∧
     onFrame exampleHost Scene.SCENE_BATTLE
         (onFrame exampleHost Scene.SCENE_BATTLE exampleG) =
       onFrame exampleHost Scene.SCENE_BATTLE exampleG ∧
     onFrame exampleHost Scene.SCENE_MAP
         (onFrame exampleHost Scene.SCENE_BATTLE
           (onFrame exampleHost Scene.SCENE_BATTLE exampleG)) =
       { onFrame exampleHost Scene.SCENE_BATTLE exampleG with
           inBattle := false }) :=
  ⟨rfl, by decide,
   dynGauge_C2_lifecycle exampleHost exampleG Scene.SCENE_MAP Scene.SCENE_MAP
     rfl (by decide) (by decide)⟩

/-- C3: `SetBattler` copies the battler's current health, mana and ATB
fields into the snapshot (and stores the battler pointer), whatever the
display's prior state; in particular, for a battler with hp 50, mp 10 and
ATB 200 the snapshot becomes exactly (50, 10, 200). -/
theorem dynGauge_C3_bind_snapshot (sys : Image) (mem : Nat → Battler)
    (p : Nat) (st : StaticTiles) (d : BattleDisplay)
    (hhp : (mem p).hp = 50) (hmp : (mem p).mp = 10)
    (hatb : (mem p).atbValue = 200) :
    (BattleDisplay.SetBattler sys mem p st d).2 =
      { d with
          mBattlerPtr := some p
          mCurHealth := (mem p).hp
          mCurMana := (mem p).mp
          mCurATB := (mem p).atbValue } ∧
    (BattleDisplay.SetBattler sys mem p st d).2.mCurHealth = 50 ∧
    (BattleDisplay.SetBattler sys mem p st d).2.mCurMana = 10 ∧
    (BattleDisplay.SetBattler sys mem p st d).2.mCurATB = 200 := by
  refine ⟨rfl, ?_, ?_, ?_⟩ <;>
    simp [BattleDisplay.SetBattler, hhp, hmp, hatb]

/-- C3 witness: binding `smallDisplay` to address 0 of `memA`
(hp 50, mp 10, ATB 200). -/
theorem dynGauge_C3_witness :
    (memA 0).hp = 50 ∧ (memA 0).mp = 10 ∧ (memA 0).atbValue = 200 ∧
    ((BattleDisplay.SetBattler exampleGraphic memA 0 exampleStatics
        smallDisplay).2 =
      { smallDisplay with
          mBattlerPtr := some 0
          mCurHealth := (memA 0).hp
          mCurMana := (memA 0).mp
          mCurATB := (memA 0).atbValue } ∧
     (BattleDisplay.SetBattler exampleGraphic memA 0 exampleStatics
        smallDisplay).2.mCurHealth = 50 ∧
     (BattleDisplay.SetBattler exampleGraphic memA 0 exampleStatics
        smallDisplay).2.mCurMana = 10 ∧
     (BattleDisplay.SetBattler exampleGraphic memA 0 exampleStatics
        smallDisplay).2.mCurATB = 200) :=
  ⟨rfl, rfl, rfl,
   dynGauge_C3_bind_snapshot exampleGraphic memA 0 exampleStatics
     smallDisplay rfl rfl rfl⟩

/-- C4: for a Bound display, `Update` re-reads the bound battler's current
`hp`, `mp` and `atbValue` at call time into the snapshot — even if they
changed after `SetBattler` — and redraws the composite canvas via `Draw`
from the display carrying the new snapshot. -/
theorem dynGauge_C4_update_refresh (st : StaticTiles) (mem : Nat → Battler)
    (d : BattleDisplay) (p : Nat) (hbp : d.mBattlerPtr = some p) :
    (BattleDisplay.Update st mem d).map BattleDisplay.mCurHealth =
      some (mem p).hp ∧
    (BattleDisplay.Update st mem d).map BattleDisplay.mCurMana =
      some (mem p).mp ∧
    (BattleDisplay.Update st mem d).map BattleDisplay.mCurATB =
      some (mem p).atbValue ∧
    (BattleDisplay.Update st mem d).map BattleDisplay.mDisplayPtr =
      some ((BattleDisplay.Draw st
        { d with
            mCurHealth := (mem p).hp
            mCurMana := (mem p).mp
            mCurATB := (mem p).atbValue }).mDisplayPtr) := by
  refine ⟨?_, ?_, ?_, ?_⟩ <;>
    simp [BattleDisplay.Update, hbp, BattleDisplay.Draw]

/-- C4 witness: `exampleBound` was bound while the battler (address 0)
had stats (50, 10, 200) from `memA`; updating it against `memB`, where
the same battler now has stats (30, 5, 100), snapshots the new values. -/
theorem dynGauge_C4_witness :
    exampleBound.mBattlerPtr = some 0 ∧
    ((BattleDisplay.Update exampleStatics memB exampleBound).map
        BattleDisplay.mCurHealth = some (memB 0).hp ∧
     (BattleDisplay.Update exampleStatics memB exampleBound).map
        BattleDisplay.mCurMana = some (memB 0).mp ∧
     (BattleDisplay.Update exampleStatics memB exampleBound).map
        BattleDisplay.mCurATB = some (memB 0).atbValue ∧
     (BattleDisplay.Update exampleStatics memB exampleBound).map
        BattleDisplay.mDisplayPtr =
       some ((BattleDisplay.Draw exampleStatics
         { exampleBound with
             mCurHealth := (memB 0).hp
             mCurMana := (memB 0).mp
             mCurATB := (memB 0).atbValue }).mDisplayPtr)) :=
  ⟨rfl,
   dynGauge_C4_update_refresh exampleStatics memB exampleBound 0 rfl⟩

/-- C5: the `mInitialized`-guarded tile-initialization step reached via
`SetBattler` is idempotent: performing it any number N ≥ 1 of times
yields exactly the tile state of performing it once; only the first
execution copies pixels from the system graphic, every later execution
leaves the tiles untouched. -/
theorem dynGauge_C5_init_idempotent (sys : Image) (st : StaticTiles)
    (n : Nat) (hn : 1 ≤ n) :
    (BattleDisplay.ensureStaticInit sys)^[n] st =
      BattleDisplay.ensureStaticInit sys st := by
  have hidem : ∀ st2 : StaticTiles,
      BattleDisplay.ensureStaticInit sys
          (BattleDisplay.ensureStaticInit sys st2) =
        BattleDisplay.ensureStaticInit sys st2 := by
    intro st2
    by_cases hinit : st2.mInitialized
    · simp [BattleDisplay.ensureStaticInit, hinit]
    · simp [BattleDisplay.ensureStaticInit, hinit, initializeStatic_flag]
  obtain ⟨m, rfl⟩ : ∃ m, n = m + 1 := ⟨n - 1, by omega⟩
  clear hn
  induction m with
  | zero => simp
  | succ k ih =>
    rw [Function.iterate_succ_apply', ih, hidem]

/-- C5 witness: two executions of the guarded step on the concrete
uninitialized tile state coincide with one. -/
theorem dynGauge_C5_witness :
    1 ≤ 2 ∧
    (BattleDisplay.ensureStaticInit exampleGraphic)^[2] exampleStatics =
      BattleDisplay.ensureStaticInit exampleGraphic exampleStatics :=
  ⟨by decide,
   dynGauge_C5_init_idempotent exampleGraphic exampleStatics 2 (by decide)⟩

/-- C6: every `Draw` call first clears the whole composite canvas — its
result does not depend on any content a previous call left there — and
then draws the health gauge tile at the fixed anchor
`(0, DISPLAY_HEIGHT - GAUGE_HEIGHT)` on the blank canvas. -/
theorem dynGauge_C6_draw_clears (st : StaticTiles) (d1 d2 : BattleDisplay)
    (hw : d1.mDisplayPtr.width = d2.mDisplayPtr.width)
    (hh : d1.mDisplayPtr.height = d2.mDisplayPtr.height) :
    (BattleDisplay.Draw st d1).mDisplayPtr =
      (BattleDisplay.Draw st d2).mDisplayPtr ∧
    (BattleDisplay.Draw st d1).mDisplayPtr =
      (Image.create d1.mDisplayPtr.width d1.mDisplayPtr.height).draw 0
        (BattleDisplay.DISPLAY_HEIGHT - BattleDisplay.GAUGE_HEIGHT)
        st.mHealthGaugePtr 0 0
        BattleDisplay.GAUGE_WIDTH BattleDisplay.GAUGE_HEIGHT 0 := by
  constructor
  · show (d1.mDisplayPtr.clear).draw 0
        (BattleDisplay.DISPLAY_HEIGHT - BattleDisplay.GAUGE_HEIGHT)
        st.mHealthGaugePtr 0 0
        BattleDisplay.GAUGE_WIDTH BattleDisplay.GAUGE_HEIGHT 0 =
      (d2.mDisplayPtr.clear).draw 0
        (BattleDisplay.DISPLAY_HEIGHT - BattleDisplay.GAUGE_HEIGHT)
        st.mHealthGaugePtr 0 0
        BattleDisplay.GAUGE_WIDTH BattleDisplay.GAUGE_HEIGHT 0
    rw [Image.clear_eq_create, Image.clear_eq_create, hw, hh]
  · rfl

/-- C6 witness: drawing on two displays that share canvas dimensions but
have different prior canvas content and snapshots gives identical
canvases. -/
theorem dynGauge_C6_witness :
    smallDisplay.mDisplayPtr.width = smallDisplayB.mDisplayPtr.width ∧
    smallDisplay.mDisplayPtr.height = smallDisplayB.mDisplayPtr.height ∧
    ((BattleDisplay.Draw exampleStatics smallDisplay).mDisplayPtr =
       (BattleDisplay.Draw exampleStatics smallDisplayB).mDisplayPtr ∧
     (BattleDisplay.Draw exampleStatics smallDisplay).mDisplayPtr =
       (Image.create smallDisplay.mDisplayPtr.width
           smallDisplay.mDisplayPtr.height).draw 0
         (BattleDisplay.DISPLAY_HEIGHT - BattleDisplay.GAUGE_HEIGHT)
         exampleStatics.mHealthGaugePtr 0 0
         BattleDisplay.GAUGE_WIDTH BattleDisplay.GAUGE_HEIGHT 0) :=
  ⟨rfl, rfl,
   dynGauge_C6_draw_clears exampleStatics smallDisplay smallDisplayB rfl rfl⟩

/-- C7 counterexample: on a default-constructed (Unbound) display, the
C++ `Update` body dereferences the null `mBattlerPtr` (`mBattlerPtr->hp`)
with no guard — a fault, modelled as `none` — so the call is not a no-op
that merely leaves the display unchanged without error. -/
theorem dynGauge_C7_counterexample :
    BattleDisplay.mkDefault.mBattlerPtr = none ∧
    BattleDisplay.Update exampleStatics memA BattleDisplay.mkDefault =
      none :=
  ⟨rfl, rfl⟩

/-- C7 as amended: for every display in the Unbound state, calling
`Update` dereferences the null battler pointer — a precondition
violation, modelled as the faulting result `none` — rather than a safe
no-op. -/
theorem dynGauge_C7_null_update (st : StaticTiles) (mem : Nat → Battler)
    (d : BattleDisplay) (hbp : d.mBattlerPtr = none) :
    BattleDisplay.Update st mem d = none := by
  simp [BattleDisplay.Update, hbp]

/-- C7 witness: the amended statement at the concrete unbound display
`smallDisplay`. -/
theorem dynGauge_C7_witness :
    smallDisplay.mBattlerPtr = none ∧
    BattleDisplay.Update exampleStatics memB smallDisplay = none :=
  ⟨rfl, dynGauge_C7_null_update exampleStatics memB smallDisplay rfl⟩

/-- C8 counterexample: with the nineteen static tile buffers at distinct
addresses and all allocated, one `onExit` call succeeds, but a second
`onExit` call destroys buffers that were already destroyed — the
double-free fault `none` — because the source has no re-entry guard. -/
theorem dynGauge_C8_counterexample :
    (onExit examplePtrs fullHeap).isSome = true ∧
    ((onExit examplePtrs fullHeap).bind (onExit examplePtrs)).isNone =
      true := by
  constructor <;> rfl

/-- C8 as amended: a single `onExit` call destroys each of the nineteen
static tile buffers exactly once (every listed address goes from
allocated to freed, nothing else is touched); but the source has no
shutdown guard, so a second `onExit` call double-frees the
already-destroyed buffers (the faulting result `none`). -/
theorem dynGauge_C8_shutdown (P : StaticPtrs) (h : ImageHeap)
    (hnd : (onExitAddrs P).Nodup)
    (hlive : ∀ a ∈ onExitAddrs P, h a = true) :
    ∃ h2, onExit P h = some h2 ∧
      (∀ a ∈ onExitAddrs P, h2 a = false) ∧
      (∀ a, a ∉ onExitAddrs P → h2 a = h a) ∧
      onExit P h2 = none := by
  obtain ⟨h2, hrun, hval⟩ :=
    destroySeq_ok (onExitAddrs P) hnd h hlive
  refine ⟨h2, hrun, ?_, ?_, ?_⟩
  · intro a ha
    rw [hval a, if_pos ha]
  · intro a ha
    rw [hval a, if_neg ha]
  · have hmem : P.healthGauge ∈ onExitAddrs P := by
      simp [onExitAddrs]
    have hdead : h2 P.healthGauge = false := by
      rw [hval P.healthGauge, if_pos hmem]
    exact destroySeq_dead_head P.healthGauge _ h2 hdead

/-- C8 witness: the amended statement at the concrete address table and
the fully allocated heap. -/
theorem dynGauge_C8_witness :
    (onExitAddrs examplePtrs).Nodup ∧
    (∀ a ∈ onExitAddrs examplePtrs, fullHeap a = true) ∧
    (∃ h2, onExit examplePtrs fullHeap = some h2 ∧
      (∀ a ∈ onExitAddrs examplePtrs, h2 a = false) ∧
      (∀ a, a ∉ onExitAddrs examplePtrs → h2 a = fullHeap a) ∧
      onExit examplePtrs h2 = none) :=
  ⟨by decide, by decide,
   dynGauge_C8_shutdown examplePtrs fullHeap (by decide) (by decide)⟩

/-- C9: on the InBattle-to-OutOfBattle transition of `onFrame`, no
display slot of either pool is modified and the static tiles are
untouched — the entire resulting state is the old state with only the
`inBattle` flag cleared. -/
theorem dynGauge_C9_battle_end (host : Host) (scene : Scene)
    (g : PluginState) (hb : g.inBattle = true)
    (hs : scene ≠ Scene.SCENE_BATTLE) :
    onFrame host scene g = { g with inBattle := false } ∧
    (onFrame host scene g).heroBattleDisplay = g.heroBattleDisplay ∧
    (onFrame host scene g).monsterBattleDisplay = g.monsterBattleDisplay := by
  have hmain := onFrame_inBattle_nonbattle host scene g hb hs
  exact ⟨hmain, by rw [hmain], by rw [hmain]⟩

/-- C9 witness: ending a battle from the concrete in-battle state
`exampleGBattle` by a map frame. -/
theorem dynGauge_C9_witness :
    exampleGBattle.inBattle = true ∧
    Scene.SCENE_MAP ≠ Scene.SCENE_BATTLE ∧
    (onFrame exampleHost Scene.SCENE_MAP exampleGBattle =
       { exampleGBattle with inBattle := false } ∧
     (onFrame exampleHost Scene.SCENE_MAP exampleGBattle).heroBattleDisplay =
       exampleGBattle.heroBattleDisplay ∧
     (onFrame exampleHost Scene.SCENE_MAP exampleGBattle).monsterBattleDisplay =
       exampleGBattle.monsterBattleDisplay) :=
  ⟨rfl, by decide,
   dynGauge_C9_battle_end exampleHost Scene.SCENE_MAP exampleGBattle rfl
     (by decide)⟩

/-- C10: after any `onFrame` call, whatever the prior state, the
`inBattle` flag records exactly whether the reported scene was
`SCENE_BATTLE`. -/
theorem dynGauge_C10_flag_tracks_scene (host : Host) (scene : Scene)
    (g : PluginState) :
    (onFrame host scene g).inBattle = true ↔ scene = Scene.SCENE_BATTLE := by
  by_cases hs : scene = Scene.SCENE_BATTLE
  · subst hs
    by_cases hb : g.inBattle
    · rw [onFrame_inBattle_battle host g hb]
      simp [hb]
    · have hb2 : g.inBattle = false := by
        simpa using hb
      rw [onFrame_out_battle_flag host g hb2]
      simp
  · by_cases hb : g.inBattle
    · rw [onFrame_inBattle_nonbattle host scene g hb hs]
      simp [hs]
    · have hb2 : g.inBattle = false := by
        simpa using hb
      rw [onFrame_out_nonbattle host scene g hb2 hs]
      simp [hb2, hs]
